import Mathlib

/-!
Verification development for the blind model-voting system
(`AI_Model_Voting_Interface`): a relational store of conversations, turns,
model responses, randomized position assignments and votes, consumed by a
voting client.  The data model and the storage-level operations below are
translated from `supabase_schema.sql`, `add_unique_vote_constraint.sql`,
`reset_votes.sql` and the client utilities (`VotingUtils`, `config.js`).
-/

namespace BlindVoting

/-- Row of the `conversations` table (`supabase_schema.sql`). -/
structure Conversation where
  id : String
  title : String
  deriving DecidableEq, Repr

/-- Row of the `turns` table (`supabase_schema.sql`). -/
structure Turn where
  id : String
  conversation_id : String
  turn_number : Nat
  user_prompt : String
  deriving DecidableEq, Repr

/-- Row of the `responses` table (`supabase_schema.sql`): the response text
together with the true model identity. -/
structure Response where
  id : String
  turn_id : String
  model_name : String
  response_text : String
  response_order : Nat
  deriving DecidableEq, Repr

/-- Row of the `response_positions` table (`supabase_schema.sql`): the
randomized anonymous label (`position CHAR(1)`, one of A/B/C/D) given to one
response of one turn. -/
structure ResponsePosition where
  id : String
  turn_id : String
  response_id : String
  position : String
  deriving DecidableEq, Repr

/-- Row of the `votes` table (`supabase_schema.sql`).  The `voter_session`
column is nullable in the schema, hence `Option String` here. -/
structure Vote where
  id : String
  turn_id : String
  position : String
  voter_session : Option String
  notes : Option String
  deriving DecidableEq, Repr

/-- The five tables of the persisted state (`supabase_schema.sql`). -/
structure Database where
  conversations : List Conversation
  turns : List Turn
  responses : List Response
  response_positions : List ResponsePosition
  votes : List Vote
  deriving DecidableEq, Repr

/-- The fixed label alphabet of the schema
(`CHECK (position IN ('A', 'B', 'C', 'D'))`). -/
def labelAlphabet : List String := ["A", "B", "C", "D"]

/-- The configured model roster (`config.js`, `CONFIG.models`). -/
def configModels : List String :=
  ["google/gemini-2.5-pro", "anthropic/claude-sonnet-4.5",
   "openai/gpt-4.1", "openai/gpt-5"]

/-- Voting settings of `config.js` (`CONFIG.voting`). -/
structure VotingConfig where
  maxVotesPerSession : Nat
  submitDebounceMs : Nat
  autoSaveIntervalMs : Nat
  deriving DecidableEq, Repr

/-- `CONFIG.voting` from `config.js`. -/
def configVoting : VotingConfig :=
  { maxVotesPerSession := 50, submitDebounceMs := 1000, autoSaveIntervalMs := 30000 }

/-- Whether a turn with this id exists in the store. -/
def turnExists (db : Database) (turnId : String) : Bool :=
  db.turns.any fun t => t.id == turnId

/-- Postgres semantics of the `UNIQUE (turn_id, voter_session)` constraint
(`add_unique_vote_constraint.sql`, `unique_vote_per_session_per_turn`):
two rows conflict when their `turn_id` agree and their `voter_session`
values are equal and both non-NULL.  Two NULL `voter_session` values are
distinct for a Postgres UNIQUE constraint, so they never conflict. -/
def voteConflicts (v1 v2 : Vote) : Bool :=
  v1.turn_id == v2.turn_id &&
    match v1.voter_session, v2.voter_session with
    | some s1, some s2 => s1 == s2
    | _, _ => false

/-- Outcome of an `INSERT` into `votes`, as reported by Postgres:
`uniqueViolation` is SQLSTATE 23505 (the unique constraint),
`checkViolation` the `position` CHECK constraint, `fkViolation` the
`turn_id REFERENCES turns(id)` foreign key. -/
inductive InsertResult where
  | ok
  | uniqueViolation
  | checkViolation
  | fkViolation
  deriving DecidableEq, Repr

/-- `INSERT INTO votes`, guarded by the constraints of the `votes` table of
`supabase_schema.sql` together with `unique_vote_per_session_per_turn` of
`add_unique_vote_constraint.sql`.  A rejected insert leaves the table
unchanged; an accepted insert appends the single new row. -/
def insertVote (db : Database) (v : Vote) : Database × InsertResult :=
  if db.votes.any (fun w => voteConflicts w v) then
    (db, InsertResult.uniqueViolation)
  else if !(labelAlphabet.contains v.position) then
    (db, InsertResult.checkViolation)
  else if !(turnExists db v.turn_id) then
    (db, InsertResult.fkViolation)
  else
    ({ db with votes := db.votes ++ [v] }, InsertResult.ok)

/-- `DELETE FROM votes` (`reset_votes.sql` and the cleanup script): removes
every vote row and touches no other table. -/
def purgeVotes (db : Database) : Database :=
  { db with votes := [] }

/-- The whole-table content of the unique constraint on `votes`: no two
distinct rows conflict. -/
def votesSatisfyUnique (vs : List Vote) : Prop :=
  List.Pairwise (fun a b => voteConflicts a b = false) vs

/-- At most one vote row per (turn, non-NULL voter-session) pair. -/
def atMostOnePerPair (vs : List Vote) : Prop :=
  ∀ t s : String,
    (vs.filter fun v => v.turn_id == t && v.voter_session == some s).length ≤ 1

/-- JavaScript truthiness of a string-or-nullish value: `null`, `undefined`
and the empty string are falsy (`VotingUtils.validateVoteData` uses
`!turnId`-style checks). -/
def jsTruthy : Option String → Bool
  | none => false
  | some s => !(s == "")

/-- Result object of `VotingUtils.validateVoteData`. -/
structure ValidationResult where
  isValid : Bool
  errors : List String
  deriving DecidableEq, Repr

/-- `VotingUtils.validateVoteData(turnId, position, voterSession)`
(src/unnamed/part_002, lines 196-215), restricted to string-or-nullish
arguments: pushes one error message per failing check and is valid when no
errors accumulated. -/
def validateVoteData (turnId position voterSession : Option String) :
    ValidationResult :=
  let errors : List String := []
  let errors :=
    if !(jsTruthy turnId) then errors ++ ["Invalid turn ID"] else errors
  let errors :=
    if !(jsTruthy position) || !(labelAlphabet.contains (position.getD "")) then
      errors ++ ["Invalid position selection"]
    else errors
  let errors :=
    if !(jsTruthy voterSession) then errors ++ ["Invalid voter session"] else errors
  { isValid := errors.length == 0, errors := errors }

/-- `VotingUtils.handleError(error, userMessage)`
(src/unnamed/part_002, lines 133-150), as a function of the observable
inputs: browser online state, the Supabase error code, whether the error
message mentions the network, and the caller-supplied fallback message.
Returns the user-facing message. -/
def handleError (online : Bool) (errorCode : Option String)
    (messageMentionsNetwork : Bool) (userMessage : String) : String :=
  if !online then
    "You appear to be offline. Please check your connection."
  else if errorCode == some "23505" then
    "You have already voted on this turn."
  else if messageMentionsNetwork then
    "Network error. Please check your connection and try again."
  else
    userMessage

/-- `COUNT(v.id)` of the `LEFT JOIN votes v ON t.id = v.turn_id AND
rp.position = v.position` groups in both views of `supabase_schema.sql`:
the number of vote rows on the given turn that chose the given label. -/
def currentVotes (votes : List Vote) (turnId : String) (position : String) : Nat :=
  (votes.filter fun v => v.turn_id == turnId && v.position == position).length

/-- Output row of the `voting_interface` view (`supabase_schema.sql`,
lines 87-103).  The view exposes no `model_name` column. -/
structure VotingInterfaceRow where
  conversation_id : String
  conversation_title : String
  turn_id : String
  turn_number : Nat
  user_prompt : String
  position : String
  response_text : String
  current_votes : Nat
  deriving DecidableEq, Repr

/-- The `voting_interface` view of `supabase_schema.sql` (the anonymized
read path used while voting): conversations joined to their turns, the
turn position assignments, the positioned response, and the live vote
count for that label.  Row order follows the join nesting; the ORDER BY
clause only reorders rows and adds none. -/
def votingInterface (db : Database) : List VotingInterfaceRow :=
  db.conversations.flatMap fun c =>
    (db.turns.filter fun t => t.conversation_id == c.id).flatMap fun t =>
      (db.response_positions.filter fun rp => rp.turn_id == t.id).flatMap fun rp =>
        (db.responses.filter fun r => r.id == rp.response_id).map fun r =>
          { conversation_id := c.id
            conversation_title := c.title
            turn_id := t.id
            turn_number := t.turn_number
            user_prompt := t.user_prompt
            position := rp.position
            response_text := r.response_text
            current_votes := currentVotes db.votes t.id rp.position }

/-- Output row of the `vote_results` view (`supabase_schema.sql`,
lines 69-84): the de-anonymized per-model tallies. -/
structure VoteResultsRow where
  conversation_title : String
  turn_number : Nat
  user_prompt : String
  model_name : String
  position : String
  vote_count : Nat
  response_text : String
  deriving DecidableEq, Repr

/-- The `vote_results` view of `supabase_schema.sql` (the analytics read
path): joins each response of each turn back through its position
assignment and counts the votes cast for that label on that turn. -/
def voteResults (db : Database) : List VoteResultsRow :=
  db.conversations.flatMap fun c =>
    (db.turns.filter fun t => t.conversation_id == c.id).flatMap fun t =>
      (db.responses.filter fun r => r.turn_id == t.id).flatMap fun r =>
        (db.response_positions.filter fun rp => rp.response_id == r.id).map fun rp =>
          { conversation_title := c.title
            turn_number := t.turn_number
            user_prompt := t.user_prompt
            model_name := r.model_name
            position := rp.position
            vote_count := currentVotes db.votes t.id rp.position
            response_text := r.response_text }

/-- The responses belonging to one turn. -/
def turnResponses (db : Database) (turnId : String) : List Response :=
  db.responses.filter fun r => r.turn_id == turnId

/-- Outcome of position assignment for a turn. -/
inductive AssignResult where
  | ok
  | rosterMismatch
  deriving DecidableEq, Repr

/-- Modelled from the spec: the position-assignment code lives in
`voting_interface.html`, which is not under `src/`.  Per the spec, the
assigner pairs the responses of the turn with a shuffled copy of the label
alphabet (the shuffle being the non-adversarial randomness source), giving
the `response_positions` rows to persist. -/
def assignedRows (db : Database) (turnId : String) (shuffledLabels : List String) :
    List ResponsePosition :=
  ((turnResponses db turnId).zip shuffledLabels).map fun pr =>
    { id := pr.1.id ++ "-position"
      turn_id := turnId
      response_id := pr.1.id
      position := pr.2 }

/-- Modelled from the spec: the position-assignment operation of
`voting_interface.html` is not under `src/`.  Per the spec it fails fast
with `RosterMismatch`, persisting nothing, when the response count of the
turn differs from the configured roster size; otherwise it persists the
full randomized mapping at once. -/
def assignPositions (db : Database) (turnId : String) (shuffledLabels : List String) :
    Database × AssignResult :=
  if (turnResponses db turnId).length == configModels.length then
    ({ db with response_positions := db.response_positions ++ assignedRows db turnId shuffledLabels },
     AssignResult.ok)
  else
    (db, AssignResult.rosterMismatch)

/-- Number of votes already cast by one voter session (used for the
`CONFIG.voting.maxVotesPerSession` cap). -/
def sessionVoteCount (db : Database) (session : String) : Nat :=
  (db.votes.filter fun v => v.voter_session == some session).length

/-- The existing vote of this session on this turn, when there is one. -/
def priorVote (db : Database) (turnId session : String) : Option Vote :=
  db.votes.find? fun v => v.turn_id == turnId && v.voter_session == some session

/-- Result variants of vote submission, as the spec names them; the
`alreadyVoted` variant carries the prior choice shown to the user. -/
inductive SubmitStatus where
  | accepted
  | alreadyVoted (priorChoice : Option String)
  | limitReached
  | invalid
  deriving DecidableEq, Repr

/-- Modelled from the spec: the vote-submission orchestration of
`voting_interface.html` is not under `src/`.  It composes the pieces that
are: `VotingUtils.validateVoteData` for input validation, the
`CONFIG.voting.maxVotesPerSession` cap from `config.js`, and the insert
against the `votes` table whose unique constraint is the source of truth
for the already-voted decision; on a unique violation (Supabase error
23505) the caller is shown the prior choice and nothing is written. -/
def submitVote (db : Database) (turnId position session : String)
    (notes : Option String) : Database × SubmitStatus :=
  if !(validateVoteData (some turnId) (some position) (some session)).isValid then
    (db, SubmitStatus.invalid)
  else if configVoting.maxVotesPerSession ≤ sessionVoteCount db session then
    (db, SubmitStatus.limitReached)
  else
    let v : Vote :=
      { id := "v" ++ toString db.votes.length
        turn_id := turnId
        position := position
        voter_session := some session
        notes := notes }
    match insertVote db v with
    | (db2, InsertResult.ok) => (db2, SubmitStatus.accepted)
    | (_, InsertResult.uniqueViolation) =>
        (db, SubmitStatus.alreadyVoted ((priorVote db turnId session).map Vote.position))
    | (_, _) => (db, SubmitStatus.invalid)

/-- Whether a label is among the assigned position labels of a turn. -/
def validLabelForTurn (db : Database) (turnId lab : String) : Bool :=
  db.response_positions.any fun rp => rp.turn_id == turnId && rp.position == lab

/-- A table of `n` vote rows on one turn whose `voter_session` is NULL. -/
def nullSessionVotes (n : Nat) (turnId : String) : List Vote :=
  (List.range n).map fun i =>
    { id := "anon" ++ toString i
      turn_id := turnId
      position := "A"
      voter_session := none
      notes := none }

/-- Concrete conversation used in the concrete-state checks below. -/
def demoConversation : Conversation := { id := "c1", title := "Demo conversation" }

/-- Concrete turn used in the concrete-state checks below. -/
def demoTurn : Turn :=
  { id := "t1", conversation_id := "c1", turn_number := 1,
    user_prompt := "Compare the answers" }

/-- Four responses for the demo turn, one per configured model. -/
def demoResponses : List Response :=
  [ { id := "r1", turn_id := "t1", model_name := "google/gemini-2.5-pro",
      response_text := "alpha", response_order := 1 },
    { id := "r2", turn_id := "t1", model_name := "anthropic/claude-sonnet-4.5",
      response_text := "beta", response_order := 2 },
    { id := "r3", turn_id := "t1", model_name := "openai/gpt-4.1",
      response_text := "gamma", response_order := 3 },
    { id := "r4", turn_id := "t1", model_name := "openai/gpt-5",
      response_text := "delta", response_order := 4 } ]

/-- A partial label assignment for the demo turn: labels A, B, C only. -/
def demoPositionsABC : List ResponsePosition :=
  [ { id := "p1", turn_id := "t1", response_id := "r1", position := "A" },
    { id := "p2", turn_id := "t1", response_id := "r2", position := "B" },
    { id := "p3", turn_id := "t1", response_id := "r3", position := "C" } ]

/-- Database with one turn whose assigned labels are only A, B, C. -/
def validationDemoDb : Database :=
  { conversations := [demoConversation]
    turns := [demoTurn]
    responses := demoResponses.take 3
    response_positions := demoPositionsABC
    votes := [] }

/-- Database holding the demo turn with its four responses and no
assignment yet. -/
def assignDemoDb : Database :=
  { conversations := [demoConversation]
    turns := [demoTurn]
    responses := demoResponses
    response_positions := []
    votes := [] }

/-- Database whose demo turn has only three responses (roster is four). -/
def mismatchDemoDb : Database :=
  { conversations := [demoConversation]
    turns := [demoTurn]
    responses := demoResponses.take 3
    response_positions := []
    votes := [] }

/-- An existing vote of session s1 on the demo turn, choice B. -/
def demoPriorVote : Vote :=
  { id := "v0", turn_id := "t1", position := "B",
    voter_session := some "s1", notes := none }

/-- Database in which session s1 already voted B on the demo turn. -/
def duplicateDemoDb : Database :=
  { conversations := [demoConversation]
    turns := [demoTurn]
    responses := demoResponses
    response_positions := demoPositionsABC
    votes := [demoPriorVote] }

/-- A vote row with a NULL voter session. -/
def anonVote : Vote :=
  { id := "anon", turn_id := "t1", position := "A",
    voter_session := none, notes := none }

/-- Fifty votes by session s1 across fifty distinct turns: the session has
reached the `maxVotesPerSession` cap. -/
def cappedVotes : List Vote :=
  (List.range configVoting.maxVotesPerSession).map fun i =>
    { id := "v" ++ toString i
      turn_id := "turn" ++ toString i
      position := "A"
      voter_session := some "s1"
      notes := none }

/-- Database in which session s1 is at the vote cap. -/
def cappedDb : Database :=
  { conversations := [demoConversation]
    turns := [demoTurn]
    responses := demoResponses
    response_positions := demoPositionsABC
    votes := cappedVotes }

/-- A vote by session s1 for label A on the demo turn. -/
def voteX : Vote :=
  { id := "vx", turn_id := "t1", position := "A",
    voter_session := some "s1", notes := none }

/-- A vote by session s2 for label B on the demo turn. -/
def voteY : Vote :=
  { id := "vy", turn_id := "t1", position := "B",
    voter_session := some "s2", notes := none }

/-- Database holding two votes on the demo turn, inserted X then Y. -/
def permDemoDb : Database :=
  { conversations := [demoConversation]
    turns := [demoTurn]
    responses := demoResponses
    response_positions := demoPositionsABC
    votes := [voteX, voteY] }

section Lemmas

/-- An insert that conflicts with an existing row is refused by the unique
constraint and changes nothing. -/
theorem insertVote_of_conflict (db : Database) (v w : Vote) (hw : w ∈ db.votes)
    (hconf : voteConflicts w v = true) :
    insertVote db v = (db, InsertResult.uniqueViolation) := by
  have hany : db.votes.any (fun x => voteConflicts x v) = true :=
    List.any_eq_true.mpr ⟨w, hw, hconf⟩
  simp [insertVote, hany]

/-- A table whose rows all have NULL voter sessions satisfies the unique
constraint outright. -/
theorem votesSatisfyUnique_of_allNull (l : List Vote)
    (h : ∀ a ∈ l, a.voter_session = none) : votesSatisfyUnique l := by
  induction l with
  | nil => exact List.Pairwise.nil
  | cons a l ih =>
      refine List.Pairwise.cons ?_ (ih fun b hb => h b (List.mem_cons_of_mem a hb))
      intro b _
      have ha : a.voter_session = none := h a (List.mem_cons_self a l)
      simp [voteConflicts, ha]

/-- Every branch of `insertVote` preserves the at-most-one-vote invariant,
so the store enforces it across any sequence of inserts. -/
theorem insertVote_preserves_atMostOne (db : Database) (u : Vote)
    (h : atMostOnePerPair db.votes) : atMostOnePerPair ((insertVote db u).1.votes) := by
  by_cases hany : db.votes.any (fun w => voteConflicts w u) = true
  · simpa [insertVote, hany] using h
  · have hany' : db.votes.any (fun w => voteConflicts w u) = false :=
      Bool.eq_false_iff.mpr hany
    by_cases hchk : u.position ∈ labelAlphabet
    · by_cases hfk : turnExists db u.turn_id = true
      · intro t s
        have hgoal :
            ((insertVote db u).1.votes.filter fun v =>
              v.turn_id == t && v.voter_session == some s) =
            ((db.votes ++ [u]).filter fun v =>
              v.turn_id == t && v.voter_session == some s) := by
          simp [insertVote, hany', hchk, hfk]
        rw [hgoal, List.filter_append]
        by_cases hu : (u.turn_id == t && u.voter_session == some s) = true
        · have hnil :
              (db.votes.filter fun v => v.turn_id == t && v.voter_session == some s) = [] := by
            rw [List.filter_eq_nil_iff]
            intro x hx hpx
            have hxt : x.turn_id = t := by
              have := (Bool.and_eq_true _ _).mp hpx
              exact eq_of_beq this.1
            have hxs : x.voter_session = some s := by
              have := (Bool.and_eq_true _ _).mp hpx
              exact eq_of_beq this.2
            have hut : u.turn_id = t := eq_of_beq ((Bool.and_eq_true _ _).mp hu).1
            have hus : u.voter_session = some s := eq_of_beq ((Bool.and_eq_true _ _).mp hu).2
            have hconf : voteConflicts x u = true := by
              simp [voteConflicts, hxt, hxs, hut, hus]
            have : db.votes.any (fun w => voteConflicts w u) = true :=
              List.any_eq_true.mpr ⟨x, hx, by simpa using hconf⟩
            rw [hany'] at this
            exact Bool.false_ne_true this
          simp [hnil, hu]
        · have hu' : (u.turn_id == t && u.voter_session == some s) = false :=
            Bool.eq_false_iff.mpr hu
          simpa [hu'] using h t s
      · have hfk' : turnExists db u.turn_id = false :=
          Bool.eq_false_iff.mpr hfk
        simpa [insertVote, hany', hchk, hfk'] using h
    · simpa [insertVote, hany', hchk] using h

end Lemmas

/-- Claim C1: at most one vote row exists per (turn, voter-session) pair,
enforced as a hard uniqueness constraint of the store: inserting a second
vote for a pair that already has one is rejected by `insertVote` with a
unique violation and leaves the vote table unchanged, and every insert
preserves the at-most-one-vote-per-pair invariant. -/
theorem vote_uniqueness_enforced_by_store (db : Database) (v w : Vote) (s : String)
    (hw : w ∈ db.votes) (ht : w.turn_id = v.turn_id)
    (hws : w.voter_session = some s) (hvs : v.voter_session = some s) :
    insertVote db v = (db, InsertResult.uniqueViolation) ∧
    ∀ (db2 : Database) (u : Vote), atMostOnePerPair db2.votes →
      atMostOnePerPair ((insertVote db2 u).1.votes) := by
  refine ⟨?_, fun db2 u h => insertVote_preserves_atMostOne db2 u h⟩
  refine insertVote_of_conflict db v w hw ?_
  simp [voteConflicts, ht, hws, hvs]

/-- Witness for C1: with session s1 already holding a vote on the demo
turn, a second insert for the same pair is refused and the table is
unchanged. -/
theorem vote_uniqueness_enforced_by_store_witness :
    insertVote duplicateDemoDb
        { id := "v1", turn_id := "t1", position := "A",
          voter_session := some "s1", notes := none } =
      (duplicateDemoDb, InsertResult.uniqueViolation) ∧
    ∀ (db2 : Database) (u : Vote), atMostOnePerPair db2.votes →
      atMostOnePerPair ((insertVote db2 u).1.votes) :=
  vote_uniqueness_enforced_by_store duplicateDemoDb
    { id := "v1", turn_id := "t1", position := "A",
      voter_session := some "s1", notes := none }
    demoPriorVote "s1" (by decide) (by decide) (by decide) (by decide)

/-- Claim C2: `voter_session` is nullable and the unique constraint treats
NULLs as distinct, so any number of NULL-session vote rows coexist on one
turn without violating the constraint, and inserting a NULL-session vote is
never refused as a unique violation. -/
theorem null_sessions_escape_uniqueness :
    (∀ (n : Nat) (turnId : String), votesSatisfyUnique (nullSessionVotes n turnId)) ∧
    (∀ (db : Database) (v : Vote), v.voter_session = none →
      (insertVote db v).2 ≠ InsertResult.uniqueViolation) := by
  constructor
  · intro n turnId
    refine votesSatisfyUnique_of_allNull _ ?_
    intro a ha
    obtain ⟨i, _, rfl⟩ := List.mem_map.mp ha
    rfl
  · intro db v hv
    have hany : db.votes.any (fun w => voteConflicts w v) = false := by
      rw [List.any_eq_false]
      intro w _
      simp [voteConflicts, hv]
    by_cases h1 : v.position ∈ labelAlphabet
    · by_cases h2 : turnExists db v.turn_id = true
      · simp [insertVote, hany, h1, h2]
      · have h2' := Bool.eq_false_iff.mpr h2
        simp [insertVote, hany, h1, h2']
    · simp [insertVote, hany, h1]

/-- Witness for C2: three NULL-session votes coexist on the demo turn, and
inserting yet another NULL-session vote is not a unique violation. -/
theorem null_sessions_escape_uniqueness_witness :
    votesSatisfyUnique (nullSessionVotes 3 "t1") ∧
    (insertVote validationDemoDb anonVote).2 ≠ InsertResult.uniqueViolation :=
  ⟨null_sessions_escape_uniqueness.1 3 "t1",
   null_sessions_escape_uniqueness.2 validationDemoDb anonVote (by decide)⟩

/-- Claim C6: the administrative purge deletes all vote rows, bringing the
vote count to zero, and leaves the conversations, turns, responses and
position-assignment tables exactly as they were. -/
theorem purgeVotes_frame (db : Database) :
    (purgeVotes db).votes.length = 0 ∧
    (purgeVotes db).conversations = db.conversations ∧
    (purgeVotes db).turns = db.turns ∧
    (purgeVotes db).responses = db.responses ∧
    (purgeVotes db).response_positions = db.response_positions :=
  ⟨rfl, rfl, rfl, rfl, rfl⟩

/-- Claim C8: position assignment for a turn whose response count differs
from the configured roster size fails fast with a roster mismatch and
persists no position-assignment row. -/
theorem roster_mismatch_fails_fast (db : Database) (turnId : String)
    (sl : List String)
    (h : (turnResponses db turnId).length ≠ configModels.length) :
    assignPositions db turnId sl = (db, AssignResult.rosterMismatch) ∧
    (assignPositions db turnId sl).1.response_positions = db.response_positions := by
  have hb : ((turnResponses db turnId).length == configModels.length) = false :=
    beq_eq_false_iff_ne.mpr h
  constructor
  · simp [assignPositions, hb]
  · simp [assignPositions, hb]

/-- Witness for C8: assigning positions on a turn with three responses when
the roster size is four yields a roster mismatch and no rows. -/
theorem roster_mismatch_fails_fast_witness :
    assignPositions mismatchDemoDb "t1" ["A", "B", "C", "D"] =
      (mismatchDemoDb, AssignResult.rosterMismatch) ∧
    (assignPositions mismatchDemoDb "t1" ["A", "B", "C", "D"]).1.response_positions =
      mismatchDemoDb.response_positions :=
  roster_mismatch_fails_fast mismatchDemoDb "t1" ["A", "B", "C", "D"] (by decide)

/-- The valid outcome of `validateVoteData` is exactly the conjunction of
its three shape checks. -/
theorem validateVoteData_isValid_iff (t p s : Option String) :
    ((validateVoteData t p s).isValid = true) ↔
      (jsTruthy t = true ∧ jsTruthy p = true ∧ p.getD "" ∈ labelAlphabet ∧
       jsTruthy s = true) := by
  cases h1 : jsTruthy t <;> cases h2 : jsTruthy p <;> cases h3 : jsTruthy s <;>
    by_cases h4 : p.getD "" ∈ labelAlphabet <;>
      simp [validateVoteData, h1, h2, h3, h4]

/-- Claim C7 counterexample: `validateVoteData` accepts a request whose
turn id references no existing turn, and accepts position D on a turn
whose assigned labels are only A, B and C — so validation does not check
turn existence nor per-turn label validity. -/
theorem validateVoteData_not_store_aware :
    (validateVoteData (some "ghost-turn") (some "A") (some "s1")).isValid = true ∧
    turnExists validationDemoDb "ghost-turn" = false ∧
    (validateVoteData (some "t1") (some "D") (some "s1")).isValid = true ∧
    validLabelForTurn validationDemoDb "t1" "D" = false := by
  refine ⟨by decide, by decide, by decide, by decide⟩

/-- Claim C7 (amended): vote-submission validation checks only the shape
of its arguments — it reports valid exactly when the turn id is a present
non-empty string, the position is one of the four fixed labels A, B, C, D,
and the voter session is a present non-empty string; turn existence is not
consulted by validation and is enforced only by the foreign key at insert
time, where a vote on a missing turn can never be stored. -/
theorem validateVoteData_shape_only :
    (∀ turnId p voterSession : Option String,
      ((validateVoteData turnId p voterSession).isValid = true ↔
        ((turnId ≠ none ∧ turnId ≠ some "") ∧
         (p = some "A" ∨ p = some "B" ∨ p = some "C" ∨ p = some "D") ∧
         (voterSession ≠ none ∧ voterSession ≠ some "")))) ∧
    (∀ (db : Database) (v : Vote), turnExists db v.turn_id = false →
      (insertVote db v).2 ≠ InsertResult.ok) := by
  constructor
  · intro a b c
    rw [validateVoteData_isValid_iff]
    have hb : (jsTruthy b = true ∧ b.getD "" ∈ labelAlphabet) ↔
        (b = some "A" ∨ b = some "B" ∨ b = some "C" ∨ b = some "D") := by
      cases b with
      | none => simp [jsTruthy]
      | some x =>
          simp only [jsTruthy, Option.getD_some, labelAlphabet, Option.some.injEq]
          constructor
          · rintro ⟨-, hmem⟩
            simpa using hmem
          · rintro (rfl | rfl | rfl | rfl) <;> simp
    have ha : (jsTruthy a = true) ↔ (a ≠ none ∧ a ≠ some "") := by
      cases a with
      | none => simp [jsTruthy]
      | some x => simp [jsTruthy]
    have hc : (jsTruthy c = true) ↔ (c ≠ none ∧ c ≠ some "") := by
      cases c with
      | none => simp [jsTruthy]
      | some x => simp [jsTruthy]
    constructor
    · rintro ⟨h1, h2, h3, h4⟩
      exact ⟨ha.mp h1, hb.mp ⟨h2, h3⟩, hc.mp h4⟩
    · rintro ⟨h1, h2, h3⟩
      obtain ⟨h2a, h2b⟩ := hb.mpr h2
      exact ⟨ha.mpr h1, h2a, h2b, hc.mpr h3⟩
  · intro db v hfk
    by_cases hany : db.votes.any (fun w => voteConflicts w v) = true
    · simp [insertVote, hany]
    · have hany' := Bool.eq_false_iff.mpr hany
      by_cases hchk : v.position ∈ labelAlphabet
      · simp [insertVote, hany', hchk, hfk]
      · simp [insertVote, hany', hchk]

/-- Witness for the amended C7: the characterization at a concrete input,
and a vote on a missing turn refused by the store. -/
theorem validateVoteData_shape_only_witness :
    ((validateVoteData (some "t1") (some "A") (some "s1")).isValid = true ↔
      ((some "t1" ≠ none ∧ some "t1" ≠ some "") ∧
       (some "A" = some "A" ∨ some "A" = some "B" ∨ some "A" = some "C" ∨
        some "A" = some "D") ∧
       (some "s1" ≠ none ∧ some "s1" ≠ some ""))) ∧
    (insertVote validationDemoDb
        { id := "vg", turn_id := "ghost-turn", position := "A",
          voter_session := some "s1", notes := none }).2 ≠ InsertResult.ok :=
  ⟨validateVoteData_shape_only.1 (some "t1") (some "A") (some "s1"),
   validateVoteData_shape_only.2 validationDemoDb
     { id := "vg", turn_id := "ghost-turn", position := "A",
       voter_session := some "s1", notes := none } (by decide)⟩

/-- Claim C4: a vote submission that hits the per-session-per-turn
uniqueness constraint completes as an idempotent already-voted outcome —
the caller is told the vote exists and shown the prior choice, the stored
vote is not overwritten and no duplicate is created — and the client error
handler maps the unique-violation code 23505 to the already-voted message
rather than a generic error. -/
theorem duplicate_vote_reported_idempotently (db : Database) (t p s : String)
    (notes : Option String) (w : Vote)
    (hvalid : (validateVoteData (some t) (some p) (some s)).isValid = true)
    (hcap : sessionVoteCount db s < configVoting.maxVotesPerSession)
    (hprior : priorVote db t s = some w) :
    submitVote db t p s notes = (db, SubmitStatus.alreadyVoted (some w.position)) ∧
    handleError true (some "23505") false "Something went wrong. Please try again." =
      "You have already voted on this turn." := by
  refine ⟨?_, by decide⟩
  have hprior' :
      db.votes.find? (fun v => v.turn_id == t && v.voter_session == some s) = some w :=
    hprior
  have hw : w ∈ db.votes := List.mem_of_find?_eq_some hprior'
  have hpred := List.find?_some hprior'
  simp only [Bool.and_eq_true, beq_iff_eq] at hpred
  have hwt : w.turn_id = t := hpred.1
  have hws : w.voter_session = some s := hpred.2
  have hle : ¬ (configVoting.maxVotesPerSession ≤ sessionVoteCount db s) :=
    Nat.not_le.mpr hcap
  have hins : insertVote db
      { id := "v" ++ toString db.votes.length, turn_id := t, position := p,
        voter_session := some s, notes := notes } =
      (db, InsertResult.uniqueViolation) :=
    insertVote_of_conflict db _ w hw (by simp [voteConflicts, hwt, hws])
  simp [submitVote, hvalid, hle, hins, hprior]

/-- Witness for C4: session s1 already voted B on the demo turn; a second
submission with A reports the existing choice B and writes nothing. -/
theorem duplicate_vote_reported_idempotently_witness :
    submitVote duplicateDemoDb "t1" "A" "s1" none =
      (duplicateDemoDb, SubmitStatus.alreadyVoted (some "B")) ∧
    handleError true (some "23505") false "Something went wrong. Please try again." =
      "You have already voted on this turn." :=
  duplicate_vote_reported_idempotently duplicateDemoDb "t1" "A" "s1" none
    demoPriorVote (by decide) (by decide) (by decide)

/-- Claim C9: the session cap is configurable with default 50; once a
session has reached it, a further (well-formed) vote submission from that
session is rejected with the distinct limit-reached result, which differs
from both the already-voted and the invalid results. -/
theorem session_cap_rejects_with_limit (db : Database) (t p s : String)
    (notes : Option String)
    (hvalid : (validateVoteData (some t) (some p) (some s)).isValid = true)
    (hcap : configVoting.maxVotesPerSession ≤ sessionVoteCount db s) :
    submitVote db t p s notes = (db, SubmitStatus.limitReached) ∧
    configVoting.maxVotesPerSession = 50 ∧
    (∀ c : Option String, SubmitStatus.limitReached ≠ SubmitStatus.alreadyVoted c) ∧
    SubmitStatus.limitReached ≠ SubmitStatus.invalid := by
  refine ⟨?_, rfl, ?_, ?_⟩
  · simp [submitVote, hvalid, hcap]
  · intro c h
    cases h
  · intro h
    cases h

/-- Witness for C9: with session s1 at fifty stored votes, a further
submission is rejected with the limit-reached result. -/
theorem session_cap_rejects_with_limit_witness :
    submitVote cappedDb "t1" "A" "s1" none = (cappedDb, SubmitStatus.limitReached) ∧
    configVoting.maxVotesPerSession = 50 ∧
    (∀ c : Option String, SubmitStatus.limitReached ≠ SubmitStatus.alreadyVoted c) ∧
    SubmitStatus.limitReached ≠ SubmitStatus.invalid :=
  session_cap_rejects_with_limit cappedDb "t1" "A" "s1" none (by decide) (by decide)

/-- Claim C3: for a turn whose response count matches the roster size, the
persisted position assignment is a bijection onto the label alphabet:
assignment succeeds, appends exactly the assignment rows, maps each of the
turn responses to exactly one row (same id list, no id repeated), and its
labels are a permutation of the full alphabet — each label used exactly
once, none missing, none repeated. -/
theorem position_assignment_is_bijection (db : Database) (turnId : String)
    (sl : List String) (hperm : sl.Perm labelAlphabet)
    (hlen : (turnResponses db turnId).length = configModels.length)
    (hnodup : ((turnResponses db turnId).map Response.id).Nodup) :
    (assignPositions db turnId sl).2 = AssignResult.ok ∧
    (assignPositions db turnId sl).1.response_positions =
      db.response_positions ++ assignedRows db turnId sl ∧
    (assignedRows db turnId sl).map ResponsePosition.response_id =
      (turnResponses db turnId).map Response.id ∧
    ((assignedRows db turnId sl).map ResponsePosition.response_id).Nodup ∧
    ((assignedRows db turnId sl).map ResponsePosition.position).Perm labelAlphabet ∧
    ((assignedRows db turnId sl).map ResponsePosition.position).Nodup := by
  have hle1 : (turnResponses db turnId).length ≤ sl.length := by
    rw [hlen, hperm.length_eq]
    decide
  have hle2 : sl.length ≤ (turnResponses db turnId).length := by
    rw [hlen, hperm.length_eq]
    decide
  have e1 : (assignedRows db turnId sl).map ResponsePosition.response_id =
      (turnResponses db turnId).map Response.id := by
    have hz := List.map_fst_zip (turnResponses db turnId) sl hle1
    calc (assignedRows db turnId sl).map ResponsePosition.response_id
        = (((turnResponses db turnId).zip sl).map Prod.fst).map Response.id := by
          simp [assignedRows, List.map_map, Function.comp]
      _ = (turnResponses db turnId).map Response.id := by rw [hz]
  have e2 : (assignedRows db turnId sl).map ResponsePosition.position = sl := by
    have hz := List.map_snd_zip (turnResponses db turnId) sl hle2
    calc (assignedRows db turnId sl).map ResponsePosition.position
        = ((turnResponses db turnId).zip sl).map Prod.snd := by
          simp [assignedRows, List.map_map, Function.comp]
      _ = sl := hz
  have halpha : labelAlphabet.Nodup := by decide
  refine ⟨?_, ?_, e1, ?_, ?_, ?_⟩
  · simp [assignPositions, hlen]
  · simp [assignPositions, hlen]
  · rw [e1]
    exact hnodup
  · rw [e2]
    exact hperm
  · rw [e2]
    exact hperm.nodup_iff.mpr halpha

/-- Witness for C3: a concrete turn with four responses and the shuffle
B, D, A, C yields a stored bijection onto the alphabet. -/
theorem position_assignment_is_bijection_witness :
    (assignPositions assignDemoDb "t1" ["B", "D", "A", "C"]).2 = AssignResult.ok ∧
    (assignPositions assignDemoDb "t1" ["B", "D", "A", "C"]).1.response_positions =
      assignDemoDb.response_positions ++
        assignedRows assignDemoDb "t1" ["B", "D", "A", "C"] ∧
    (assignedRows assignDemoDb "t1" ["B", "D", "A", "C"]).map
        ResponsePosition.response_id =
      (turnResponses assignDemoDb "t1").map Response.id ∧
    ((assignedRows assignDemoDb "t1" ["B", "D", "A", "C"]).map
        ResponsePosition.response_id).Nodup ∧
    ((assignedRows assignDemoDb "t1" ["B", "D", "A", "C"]).map
        ResponsePosition.position).Perm labelAlphabet ∧
    ((assignedRows assignDemoDb "t1" ["B", "D", "A", "C"]).map
        ResponsePosition.position).Nodup :=
  position_assignment_is_bijection assignDemoDb "t1" ["B", "D", "A", "C"]
    (by decide) (by decide) (by decide)

/-- Filtering and mapping a pointwise-rewritten list is unchanged when the
rewriting is invisible to both the filter predicate and the mapped
function. -/
theorem map_filter_of_invariants {α β : Type} (rs : List α) (g : α → α)
    (p : α → Bool) (hp : ∀ r, p (g r) = p r)
    (F : α → β) (hF : ∀ r, F (g r) = F r) :
    ((rs.map g).filter p).map F = (rs.filter p).map F := by
  induction rs with
  | nil => rfl
  | cons a l ih =>
      simp only [List.map_cons, List.filter_cons, hp]
      by_cases hq : p a = true
      · simp [hq, hF, ih]
      · simp [Bool.eq_false_iff.mpr hq, ih]

/-- Claim C5: the anonymized voting read path never includes model
identity — two database states that differ only in the model names of the
responses produce identical `voting_interface` outputs, for any renaming
whatsoever. -/
theorem voting_interface_never_exposes_model (db : Database)
    (rename : Response → String) :
    votingInterface
        { db with
          responses := db.responses.map fun r => { r with model_name := rename r } } =
      votingInterface db := by
  refine congrArg (List.flatMap db.conversations) (funext fun c => ?_)
  refine congrArg
    (List.flatMap (db.turns.filter fun t => t.conversation_id == c.id))
    (funext fun t => ?_)
  refine congrArg
    (List.flatMap (db.response_positions.filter fun rp => rp.turn_id == t.id))
    (funext fun rp => ?_)
  apply map_filter_of_invariants db.responses
    (fun r => { r with model_name := rename r })
  · intro r
    rfl
  · intro r
    rfl

/-- Claim C10: the per-model aggregation is a pure function of the stored
state and is order-independent — recomputing `vote_results` over any
permutation of the stored votes yields exactly the same rows, so any
cached tally matching one insertion order matches the from-scratch
recomputation. -/
theorem vote_results_order_independent (db : Database) (vs2 : List Vote)
    (hperm : vs2.Perm db.votes) :
    voteResults { db with votes := vs2 } = voteResults db := by
  have hcv : ∀ t p, currentVotes vs2 t p = currentVotes db.votes t p := fun t p =>
    (hperm.filter _).length_eq
  refine congrArg (List.flatMap db.conversations) (funext fun c => ?_)
  refine congrArg
    (List.flatMap (db.turns.filter fun t => t.conversation_id == c.id))
    (funext fun t => ?_)
  refine congrArg
    (List.flatMap (db.responses.filter fun r => r.turn_id == t.id))
    (funext fun r => ?_)
  refine List.map_congr_left fun rp _ => ?_
  rw [hcv]

/-- Witness for C10: with two stored votes, recomputation over the
reversed vote list gives the same aggregated rows. -/
theorem vote_results_order_independent_witness :
    voteResults { permDemoDb with votes := [voteY, voteX] } = voteResults permDemoDb :=
  vote_results_order_independent permDemoDb [voteY, voteX] (by decide)

end BlindVoting
